import Mathlib

/-!
Verification of the SaGa 2D ecosystem simulator (src/src/universe.py,
src/src/cell.py, src/src/entities.py) against its specification.

Shallow embedding conventions:
* Python floats are modelled as rationals; every arithmetic step of the
  source is kept exactly (0.1 becomes 1/10, and so on).
* The global random module is modelled by explicit draw records passed to
  the functions that consume randomness; theorems that need the draws to be
  in range state that as hypotheses.
* The source compares a Euclidean distance (sqrt of dist2) with a sum of
  radii; both sides are nonnegative at every such comparison, so the
  embedding compares dist2 with the square of the radius sum.
* In-place mutation of Python objects becomes explicit state passing: the
  lists of foods and venoms owned by the universe are threaded through the
  per-cell interaction pass.
* Python attribute lookup on attributes that are conditionally absent is
  modelled with Option; an absent attribute raises AttributeError.
* Divisions the source can perform on a zero divisor raise
  ZeroDivisionError in Python; where such a division is reachable
  (process_every_n with max_cells // 2 = 0) the embedding raises an
  explicit error value, and theorems about configurations that avoid it
  carry the corresponding hypotheses (max_cells at least 2, positive
  min-units for the partitioner).
-/

namespace SaGa

/-- Runtime errors the embedded code can raise. -/
inductive PyErr where
  | typeError (msg : String) : PyErr
  | attributeError (msg : String) : PyErr
  | assertionError (msg : String) : PyErr
  | zeroDivisionError (msg : String) : PyErr
  deriving Repr, DecidableEq

/-- entities.py, class Food. The uuid identity is modelled as a natural. -/
structure Food where
  id : ℕ := 0
  energy : ℚ
  position : ℚ × ℚ
  deriving Repr, DecidableEq

/-- entities.py, class Venom. -/
structure Venom where
  id : ℕ := 0
  toxicity : ℚ
  position : ℚ × ℚ
  deriving Repr, DecidableEq

/-- entities.py, Food.degrade: multiply by the factor, floor to 0 below 0.01. -/
def Food.degrade (f : Food) (factor : ℚ) : Food :=
  let e := f.energy * factor
  { f with energy := if e < 1/100 then 0 else e }

/-- entities.py, Venom.degrade. -/
def Venom.degrade (v : Venom) (factor : ℚ) : Venom :=
  let t := v.toxicity * factor
  { v with toxicity := if t < 1/100 then 0 else t }

/-- cell.py, dataclass Cell.  Field defaults mirror the Python defaults
(the Python default for color draws its green component uniformly from
[0.7, 0.99]; the Lean default is one such value). -/
structure Cell where
  id : ℕ := 0
  energy : ℚ
  position : ℚ × ℚ
  vx : ℚ := 0
  vy : ℚ := 0
  ax : ℚ := 0
  ay : ℚ := 0
  speed : ℚ := 3
  accel_sigma : ℚ := 3/2
  accel_tau : ℚ := 1/2
  vel_damping : ℚ := 1/50
  reproduction_probability : ℚ := 1/10
  reproduction_energy_threshold : ℚ := 35
  reproduction_age_threshold : ℕ := 125
  basal_metabolism : ℚ := 1/10000
  move_cost_per_unit : ℚ := 1/100000
  max_energy : ℚ := 50
  color : ℚ × ℚ × ℚ := (0, 17/20, 0)
  color_mutation_rate : ℚ := 99/100
  color_mutation_strength : ℚ := 4/5
  age : ℕ := 0
  max_age : ℕ := 500
  deriving Repr, DecidableEq

/-- cell.py, property Cell.diameter: linearly proportional to energy,
0 for nonpositive energy. -/
def Cell.diameter (c : Cell) : ℚ :=
  if c.energy ≤ 0 then 0 else c.energy

/-- cell.py, Cell.die: energy pinned to 0. -/
def Cell.die (c : Cell) : Cell :=
  { c with energy := 0 }

/-- The random draws consumed by one call of Cell.reproduce.  rand is the
random.random() draw of the Bernoulli trial; child_vx and child_vy stand
for cos(angle) * 0.3 and sin(angle) * 0.3 for the uniform angle draw;
offset_x and offset_y are the two uniform(-25, 25) draws; child_color is
the result of mutate_color (imported by cell.py from tools.py but not
defined anywhere in the repository; the claims do not depend on it). -/
structure ReproDraws where
  rand : ℚ
  child_id : ℕ := 0
  child_vx : ℚ := 0
  child_vy : ℚ := 0
  offset_x : ℚ := 0
  offset_y : ℚ := 0
  child_color : ℚ × ℚ × ℚ := (0, 0, 0)
  deriving Repr, DecidableEq

/-- cell.py, the can_reproduce condition inside Cell.reproduce. -/
def Cell.canReproduce (c : Cell) (d : ReproDraws) : Bool :=
  decide (c.reproduction_energy_threshold ≤ c.energy) &&
    decide (c.reproduction_age_threshold ≤ c.age) &&
    decide (d.rand < c.reproduction_probability)

/-- cell.py, Cell.reproduce.  Note that the child position reads
self.energy after the deduction, exactly as the source does. -/
def Cell.reproduce (c : Cell) (d : ReproDraws) : Cell × Option Cell :=
  if c.canReproduce d then
    let fraction : ℚ := 1/2
    let child_energy := c.energy * fraction
    let c1 := { c with energy := c.energy - (child_energy + 2) }
    if c1.energy ≤ 0 then (c1.die, none)
    else
      let child : Cell :=
        { id := d.child_id
          energy := child_energy
          position := (c.position.1 + c1.energy/2 + d.offset_x,
                       c.position.2 + c1.energy/2 + d.offset_y)
          vx := d.child_vx
          vy := d.child_vy
          ax := 0
          ay := 0
          speed := c.speed
          accel_sigma := c.accel_sigma
          accel_tau := c.accel_tau
          vel_damping := c.vel_damping
          reproduction_probability := c.reproduction_probability
          reproduction_energy_threshold := c.reproduction_energy_threshold
          reproduction_age_threshold := c.reproduction_age_threshold
          basal_metabolism := c.basal_metabolism
          move_cost_per_unit := c.move_cost_per_unit
          max_energy := c.max_energy
          color := d.child_color
          color_mutation_rate := c.color_mutation_rate
          color_mutation_strength := c.color_mutation_strength
          age := 0
          max_age := c.max_age }
      (c1, some child)
  else (c, none)

/-- Concrete parent cell for the C9 witness: thresholds lowered so the
trial can succeed while the deduction bankrupts the parent. -/
def wCellC9 : Cell :=
  { energy := 3
    position := (0, 0)
    reproduction_energy_threshold := 1
    reproduction_age_threshold := 0
    age := 1 }

/-- Concrete draws for the C9 witness (trial succeeds: 0 < 1/10). -/
def wDrawsC9 : ReproDraws :=
  { rand := 0 }

/-- universe.py, class Universe.  One field per attribute assigned in
Universe.__init__.  Field defaults mirror the Python parameter defaults
(cell_check_radius2 is the square of the default radius); initial_energy
and ratio have no Python default and their Lean defaults are only a
convenience for writing concrete fixtures — Universe.init is the faithful
constructor.  The last six Option fields model the attributes that
get_state reads but that __init__ never assigns (the only assignments to
them in the repository are in leftover helpers in tools.py that are never
imported): none models the absent attribute. -/
structure Universe where
  width : ℚ := 1000
  height : ℚ := 1000
  boundary_mode : String := "bounce"
  bounce_restitution : ℚ := 8/10
  max_cells : ℕ := 500
  cell_check_radius : ℚ := 100
  cell_check_radius2 : ℚ := 10000
  energy : ℚ := 0
  ratio : ℚ := 1/2
  waste_factor : ℚ := 19/20
  venom_energy_to_toxicity : ℚ := 1
  food_degrade_factor : ℚ := 39/50
  venom_degrade_factor : ℚ := 4/5
  cleanup_depleted : Bool := true
  max_new_foods : ℕ := 6
  max_new_venoms : ℕ := 6
  min_unit_food : ℚ := 1
  min_unit_venom : ℚ := 1
  foods : List Food := []
  venoms : List Venom := []
  cells : List Cell := []
  touch_radius_food2 : Option ℚ := none
  touch_radius_venom2 : Option ℚ := none
  food_transfer_fraction : Option ℚ := none
  venom_transfer_fraction : Option ℚ := none
  food_transfer_cap : Option ℚ := none
  venom_transfer_cap : Option ℚ := none
  deriving Repr, DecidableEq

/-- universe.py, Universe._apply_bounds.  Cells always carry vx and vy
(dataclass fields), so the getattr defaults and hasattr guards of the
source always see the real fields. -/
def Universe.apply_bounds (u : Universe) (c : Cell) : Cell :=
  let x := c.position.1
  let y := c.position.2
  let vx := c.vx
  let vy := c.vy
  if u.boundary_mode = "wrap" then
    let x1 := if x < 0 then x + u.width else if x > u.width then x - u.width else x
    let y1 := if y < 0 then y + u.height else if y > u.height then y - u.height else y
    { c with position := (x1, y1) }
  else
    let xv := if x < 0 then ((0:ℚ), |vx| * u.bounce_restitution)
              else if x > u.width then (u.width, -|vx| * u.bounce_restitution)
              else (x, vx)
    let yv := if y < 0 then ((0:ℚ), |vy| * u.bounce_restitution)
              else if y > u.height then (u.height, -|vy| * u.bounce_restitution)
              else (y, vy)
    { c with position := (xv.1, yv.1), vx := xv.2, vy := yv.2 }

/-- A position inside the world rectangle [0, width] x [0, height]. -/
def Universe.inBounds (u : Universe) (p : ℚ × ℚ) : Prop :=
  0 ≤ p.1 ∧ p.1 ≤ u.width ∧ 0 ≤ p.2 ∧ p.2 ≤ u.height

/-- 100 x 100 universe in wrap mode, for the C8 counterexample and witness. -/
def wrapU : Universe :=
  { width := 100, height := 100, boundary_mode := "wrap" }

/-- Cell more than one full bounds-extent outside the left edge. -/
def cellC8cex : Cell :=
  { energy := 10, position := (-150, 50) }

/-- Cell within one bounds-extent of the rectangle on both axes. -/
def cellC8w : Cell :=
  { energy := 10, position := (-30, 150), vx := 2, vy := -3 }

/-- tools.py, _dist2: squared Euclidean distance. -/
def dist2 (a b : ℚ × ℚ) : ℚ :=
  (a.1 - b.1) * (a.1 - b.1) + (a.2 - b.2) * (a.2 - b.2)

/-- universe.py, _interact_partial, body of one food iteration.  The
source compares sqrt(dist2) with cell_radius + food_radius; both sides are
nonnegative there, so the embedding compares dist2 with the square. -/
def foodContact (pos : ℚ × ℚ) (cell_radius : ℚ) (ce : ℚ) (f : Food) :
    ℚ × Food :=
  if 0 < f.energy then
    let food_radius := f.energy / 2
    if dist2 pos f.position ≤
        (cell_radius + food_radius) * (cell_radius + food_radius) then
      let cell_size_factor := min (ce / (f.energy + 1/10)) 2
      let eat_rate := 1/10 * cell_size_factor
      let amt := min (f.energy * eat_rate) f.energy
      let fe1 := f.energy - amt
      (ce + amt, { f with energy := if fe1 ≤ 1/100 then 0 else fe1 })
    else (ce, f)
  else (ce, f)

/-- universe.py, _interact_partial, the dmg expression of one venom
iteration: min(toxicity * (0.09 * (toxicity / (cell.energy + 0.1))),
toxicity). -/
def venomDmg (ce : ℚ) (v : Venom) : ℚ :=
  min (v.toxicity * (9/100 * (v.toxicity / (ce + 1/10)))) v.toxicity

/-- universe.py, _interact_partial, body of one venom iteration: subtract
0.4 * dmg from the toxicity and dmg from the cell energy, then floor the
toxicity to 0 at or below 0.01 and clamp the cell energy at 0. -/
def venomContact (pos : ℚ × ℚ) (cell_radius : ℚ) (ce : ℚ) (v : Venom) :
    ℚ × Venom :=
  if 0 < v.toxicity then
    let venom_radius := v.toxicity / 2
    if dist2 pos v.position ≤
        (cell_radius + venom_radius) * (cell_radius + venom_radius) then
      let dmg := venomDmg ce v
      let vt := v.toxicity - dmg * (4/10)
      let ce1 := ce - dmg
      (if ce1 ≤ 0 then 0 else ce1,
       { v with toxicity := if vt ≤ 1/100 then 0 else vt })
    else (ce, v)
  else (ce, v)

/-- The food loop of _interact_partial: _get_nearby_foods filters on
positive energy and dist2 at most cell_check_radius2, and the loop then
processes the nearby foods in list order, threading the cell energy.
Each food object is visited once, so filtering first and iterating is the
same as this fused single pass. -/
def foodPass (pos : ℚ × ℚ) (cell_radius r2 : ℚ) : ℚ → List Food → ℚ × List Food
  | ce, [] => (ce, [])
  | ce, f :: fs =>
    let hd := if 0 < f.energy ∧ dist2 pos f.position ≤ r2
              then foodContact pos cell_radius ce f else (ce, f)
    let tl := foodPass pos cell_radius r2 hd.1 fs
    (tl.1, hd.2 :: tl.2)

/-- The venom loop of _interact_partial, fused with the
_get_nearby_venoms filter in the same way as foodPass. -/
def venomPass (pos : ℚ × ℚ) (cell_radius r2 : ℚ) : ℚ → List Venom → ℚ × List Venom
  | ce, [] => (ce, [])
  | ce, v :: vs =>
    let hd := if 0 < v.toxicity ∧ dist2 pos v.position ≤ r2
              then venomContact pos cell_radius ce v else (ce, v)
    let tl := venomPass pos cell_radius r2 hd.1 vs
    (tl.1, hd.2 :: tl.2)

/-- universe.py, Universe._interact_partial.  self.foods and self.venoms
are threaded explicitly; the returned cell and lists are the mutated
objects. -/
def Universe.interactPartial (u : Universe) (c : Cell)
    (foods : List Food) (venoms : List Venom) :
    Cell × List Food × List Venom :=
  if c.energy ≤ 0 then (c, foods, venoms)
  else
    let cell_radius := c.diameter / 2
    let fp := foodPass c.position cell_radius u.cell_check_radius2 c.energy foods
    let vp := venomPass c.position cell_radius u.cell_check_radius2 fp.1 venoms
    ({ c with energy := vp.1 }, fp.2, vp.2)

/-- Venom whose toxicity is low enough that the floor at 0.01 fires. -/
def venomC10 : Venom :=
  { toxicity := 1/200, position := (0, 0) }

/-- Venom for the C10 witness: large enough that the floor does not fire. -/
def venomC10w : Venom :=
  { toxicity := 1, position := (0, 0) }

/-- Fixtures for the C7 witness: a default universe, one cell, one food
and one venom all stacked at (50, 50). -/
def uC7 : Universe := {}

def cellC7 : Cell :=
  { energy := 40, position := (50, 50) }

def foodsC7 : List Food :=
  [{ energy := 10, position := (50, 50) }]

def venomsC7 : List Venom :=
  [{ toxicity := 5, position := (50, 50) }]

/-- The random draws consumed by one call of _random_partition: n_draw m
models random.randint(1, m); cuts is the stream of random.random() draws
for the cut points; shuffle models random.shuffle. -/
structure PartDraws where
  n_draw : ℕ → ℕ
  cuts : ℕ → ℚ
  shuffle : List ℚ → List ℚ

/-- The draws are in the ranges the random module guarantees, and shuffle
permutes its input. -/
def ValidPart (d : PartDraws) : Prop :=
  (∀ m, 1 ≤ m → 1 ≤ d.n_draw m ∧ d.n_draw m ≤ m) ∧
  (∀ i, 0 ≤ d.cuts i ∧ d.cuts i < 1) ∧
  (∀ l, (d.shuffle l).Perm l)

/-- universe.py, _random_partition, the weights loop: successive gaps of
the sorted cut points, plus the final segment 1 - last. -/
def pyWeights : List ℚ → ℚ → List ℚ
  | [], last => [1 - last]
  | c :: cs, last => (c - last) :: pyWeights cs c

/-- universe.py, Universe._random_partition.  int(total // min_unit) on
positive floats is the integer floor of the quotient; random.randint(1,
max_parts) becomes d.n_draw max_parts; sorted(random.random() for _ in
range(n - 1)) becomes insertionSort over the cut stream. -/
def random_partition (total min_unit : ℚ) (max_parts_cap : ℕ) (d : PartDraws) :
    List ℚ :=
  if total < min_unit then []
  else
    let max_parts_by_energy : ℤ := ⌊total / min_unit⌋
    if max_parts_by_energy ≤ 0 then []
    else
      let max_parts : ℕ := max 1 (min max_parts_by_energy.toNat max_parts_cap)
      let n := d.n_draw max_parts
      let base := List.replicate n min_unit
      let rem := total - n * min_unit
      if rem ≤ 1/10^12 then d.shuffle base
      else
        let cuts := List.insertionSort (· ≤ ·) ((List.range (n - 1)).map d.cuts)
        let weights := pyWeights cuts 0
        let chunks := List.zipWith (fun b w => b + rem * w) base weights
        d.shuffle chunks

/-- Deterministic valid draw record for the C2 counterexample and witness:
randint returns the upper bound, every cut is 1/2, shuffle is the identity
permutation. -/
def wPartDraws : PartDraws :=
  { n_draw := fun m => m
    cuts := fun _ => 1/2
    shuffle := id }

/-- One entry of the foods list of get_state. -/
structure FoodSnap where
  id : ℕ
  energy : ℚ
  position : ℚ × ℚ
  deriving Repr, DecidableEq

/-- One entry of the venoms list of get_state. -/
structure VenomSnap where
  id : ℕ
  toxicity : ℚ
  position : ℚ × ℚ
  deriving Repr, DecidableEq

/-- One entry of the cells list of get_state. -/
structure CellSnap where
  id : ℕ
  energy : ℚ
  position : ℚ × ℚ
  velocity : ℚ × ℚ
  deriving Repr, DecidableEq

/-- The config section of get_state.  The source stores the square roots
of touch_radius_food2 and touch_radius_venom2; the squared values are kept
here because ℚ has no square root — the branch that builds this record is
unreachable anyway (see get_state_attribute_error). -/
structure ConfigSnap where
  bounds : ℚ × ℚ
  boundary_mode : String
  bounce_restitution : ℚ
  ratio : ℚ
  waste_factor : ℚ
  venom_energy_to_toxicity : ℚ
  food_degrade_factor : ℚ
  venom_degrade_factor : ℚ
  cleanup_depleted : Bool
  max_new_foods : ℕ
  max_new_venoms : ℕ
  min_unit_food : ℚ
  min_unit_venom : ℚ
  touch_radius_food2 : ℚ
  touch_radius_venom2 : ℚ
  food_transfer_fraction : ℚ
  venom_transfer_fraction : ℚ
  food_transfer_cap : ℚ
  venom_transfer_cap : ℚ
  deriving Repr, DecidableEq

/-- The full dictionary returned by get_state. -/
structure UnivState where
  energy : ℚ
  foods : List FoodSnap
  venoms : List VenomSnap
  cells : List CellSnap
  config : ConfigSnap
  deriving Repr, DecidableEq

/-- universe.py, Universe.get_state.  The dict literal is evaluated left
to right; the config section reads six attributes that __init__ never
assigns, and Python raises AttributeError at the first of them,
touch_radius_food2. -/
def Universe.getState (u : Universe) : Except PyErr UnivState :=
  match u.touch_radius_food2 with
  | none => .error (.attributeError "touch_radius_food2")
  | some trf2 =>
    match u.touch_radius_venom2 with
    | none => .error (.attributeError "touch_radius_venom2")
    | some trv2 =>
      match u.food_transfer_fraction with
      | none => .error (.attributeError "food_transfer_fraction")
      | some ftf =>
        match u.venom_transfer_fraction with
        | none => .error (.attributeError "venom_transfer_fraction")
        | some vtf =>
          match u.food_transfer_cap with
          | none => .error (.attributeError "food_transfer_cap")
          | some ftc =>
            match u.venom_transfer_cap with
            | none => .error (.attributeError "venom_transfer_cap")
            | some vtc =>
              .ok
                { energy := u.energy
                  foods := u.foods.map fun f =>
                    { id := f.id, energy := f.energy, position := f.position }
                  venoms := u.venoms.map fun v =>
                    { id := v.id, toxicity := v.toxicity, position := v.position }
                  cells := u.cells.map fun a =>
                    { id := a.id, energy := a.energy, position := a.position,
                      velocity := (a.vx, a.vy) }
                  config :=
                    { bounds := (u.width, u.height)
                      boundary_mode := u.boundary_mode
                      bounce_restitution := u.bounce_restitution
                      ratio := u.ratio
                      waste_factor := u.waste_factor
                      venom_energy_to_toxicity := u.venom_energy_to_toxicity
                      food_degrade_factor := u.food_degrade_factor
                      venom_degrade_factor := u.venom_degrade_factor
                      cleanup_depleted := u.cleanup_depleted
                      max_new_foods := u.max_new_foods
                      max_new_venoms := u.max_new_venoms
                      min_unit_food := u.min_unit_food
                      min_unit_venom := u.min_unit_venom
                      touch_radius_food2 := trf2
                      touch_radius_venom2 := trv2
                      food_transfer_fraction := ftf
                      venom_transfer_fraction := vtf
                      food_transfer_cap := ftc
                      venom_transfer_cap := vtc } }

/-- universe.py, Universe.__init__, parameters in source order.  The two
asserts become AssertionError results; on success every attribute is
assigned exactly as in the source, and the six attributes get_state needs
but __init__ does not assign are absent (none). -/
def Universe.init (initial_energy ratio waste_factor width height
    venom_energy_to_toxicity food_degrade_factor venom_degrade_factor : ℚ)
    (cleanup_depleted : Bool) (max_new_foods max_new_venoms : ℕ)
    (min_unit_food min_unit_venom : ℚ) (max_cells : ℕ)
    (cell_check_radius : ℚ) (boundary_mode : String)
    (bounce_restitution : ℚ) : Except PyErr Universe :=
  if ¬ (0 ≤ ratio ∧ ratio ≤ 1) then
    .error (.assertionError "ratio must be in [0, 1]")
  else if ¬ (0 < width ∧ 0 < height) then
    .error (.assertionError "Universe dimensions must be positive")
  else
    .ok { width := width
          height := height
          boundary_mode := boundary_mode
          bounce_restitution := bounce_restitution
          max_cells := max_cells
          cell_check_radius := cell_check_radius
          cell_check_radius2 := cell_check_radius * cell_check_radius
          energy := initial_energy
          ratio := ratio
          waste_factor := waste_factor
          venom_energy_to_toxicity := venom_energy_to_toxicity
          food_degrade_factor := food_degrade_factor
          venom_degrade_factor := venom_degrade_factor
          cleanup_depleted := cleanup_depleted
          max_new_foods := max_new_foods
          max_new_venoms := max_new_venoms
          min_unit_food := min_unit_food
          min_unit_venom := min_unit_venom
          foods := []
          venoms := []
          cells := []
          touch_radius_food2 := none
          touch_radius_venom2 := none
          food_transfer_fraction := none
          venom_transfer_fraction := none
          food_transfer_cap := none
          venom_transfer_cap := none }

/-- The universe built by init with the default parameters of the source,
initial_energy 0 and ratio 1/2. -/
def wU6 : Universe := {}

/-- universe.py line 117, the call child = cell.run().  Cell.run is
declared def run(self, state) in cell.py, but the call site supplies no
argument for state, so Python raises TypeError before entering the body.
This is the error value of that call. -/
def cellRunTypeError : PyErr :=
  .typeError "Cell.run missing 1 required positional argument state"

/-- The cell.run() call as it stands in the source: it always raises. -/
def cellRunCall : Cell → Except PyErr (Cell × Option Cell) :=
  fun _ => .error cellRunTypeError

/-- A per-cell step that never raises, used to state how the orchestrator
behaves around a working Cell.run: the step returns the updated cell and
the optional offspring. -/
def okStep (ps : Cell → Cell × Option Cell) :
    Cell → Except PyErr (Cell × Option Cell) :=
  fun c => .ok (ps c)

/-- Python raises this at an integer division by zero. -/
def intZeroDivisionError : PyErr :=
  .zeroDivisionError "integer division or modulo by zero"

/-- universe.py, Universe.run lines 108-113: process_every_n, including
the exception Python raises there.  When the population exceeds
0.8 * max_cells the source computes cell_count // (max_cells // 2); with
max_cells at most 1 the divisor max_cells // 2 is 0 and the program
raises ZeroDivisionError before touching any cell.  Universe.run consumes
this checked value, so that corner aborts the tick exactly as in the
source. -/
def Universe.processEveryNChecked (u : Universe) : Except PyErr ℕ :=
  if (u.cells.length : ℚ) > (u.max_cells : ℚ) * (8/10) then
    if u.max_cells / 2 = 0 then .error intZeroDivisionError
    else .ok (max 1 (u.cells.length / (u.max_cells / 2)))
  else .ok 1

/-- The value process_every_n takes whenever the source computes one
(that is, outside the ZeroDivisionError corner of
processEveryNChecked): 1 at low population, max(1, cell_count //
(max_cells // 2)) above 0.8 * max_cells.  Used to state which indices a
completed tick advances. -/
def Universe.processEveryN (u : Universe) : ℕ :=
  if (u.cells.length : ℚ) > (u.max_cells : ℚ) * (8/10) then
    max 1 (u.cells.length / (u.max_cells / 2))
  else 1

/-- The state threaded through the per-cell loop of Universe.run: the
foods and venoms lists (mutated in place by _interact_partial), the
snapshot cells after their in-place updates, the offspring buffer, and a
ghost list recording the snapshot indices on which cell.run was invoked
(observable in Python as the set of cells whose run method gets called;
it exists so that theorems can speak about which cells were advanced). -/
structure LoopSt where
  foods : List Food
  venoms : List Venom
  updated : List Cell
  offspring : List Cell
  processed : List ℕ
  deriving Repr

/-- universe.py, Universe.run lines 115-123, the per-cell loop over
enumerate(list(self.cells)).  step models the cell.run() call; i is the
enumerate index; u supplies the read-only configuration and the untouched
self.cells list, whose length the offspring admission check reads. -/
def Universe.cellLoop (u : Universe)
    (step : Cell → Except PyErr (Cell × Option Cell)) (pen : ℕ) :
    ℕ → List Cell → LoopSt → Except PyErr LoopSt
  | _, [], s => .ok s
  | i, c :: rest, s =>
    if i % pen = 0 then
      match step c with
      | .error e => .error e
      | .ok (c1, child) =>
        let c2 := u.apply_bounds c1
        let ip := u.interactPartial c2 s.foods s.venoms
        let s1 : LoopSt :=
          { foods := ip.2.1, venoms := ip.2.2,
            updated := s.updated ++ [ip.1], offspring := s.offspring,
            processed := s.processed ++ [i] }
        let s2 : LoopSt :=
          match child with
          | none => s1
          | some ch =>
            if u.cells.length < u.max_cells then
              let ch1 := u.apply_bounds ch
              let ipc := u.interactPartial ch1 s1.foods s1.venoms
              { s1 with foods := ipc.2.1, venoms := ipc.2.2,
                        offspring := s1.offspring ++ [ipc.1] }
            else s1
        u.cellLoop step pen (i + 1) rest s2
    else
      u.cellLoop step pen (i + 1) rest { s with updated := s.updated ++ [c] }

/-- The per-cell loop for a step that never raises (same body as
cellLoop with the Except layer stripped; cellLoop_okStep proves the
correspondence). -/
def Universe.cellLoopP (u : Universe) (ps : Cell → Cell × Option Cell)
    (pen : ℕ) : ℕ → List Cell → LoopSt → LoopSt
  | _, [], s => s
  | i, c :: rest, s =>
    if i % pen = 0 then
      let pc := ps c
      let c2 := u.apply_bounds pc.1
      let ip := u.interactPartial c2 s.foods s.venoms
      let s1 : LoopSt :=
        { foods := ip.2.1, venoms := ip.2.2,
          updated := s.updated ++ [ip.1], offspring := s.offspring,
          processed := s.processed ++ [i] }
      let s2 : LoopSt :=
        match pc.2 with
        | none => s1
        | some ch =>
          if u.cells.length < u.max_cells then
            let ch1 := u.apply_bounds ch
            let ipc := u.interactPartial ch1 s1.foods s1.venoms
            { s1 with foods := ipc.2.1, venoms := ipc.2.2,
                      offspring := s1.offspring ++ [ipc.1] }
          else s1
      u.cellLoopP ps pen (i + 1) rest s2
    else
      u.cellLoopP ps pen (i + 1) rest { s with updated := s.updated ++ [c] }

/-- The initial loop state of a tick. -/
def Universe.loopInit (u : Universe) : LoopSt :=
  { foods := u.foods, venoms := u.venoms,
    updated := [], offspring := [], processed := [] }

/-- Abbreviation for the loop state at the end of the per-cell pass of a
tick driven by the non-raising step ps. -/
def Universe.runLoopP (u : Universe) (ps : Cell → Cell × Option Cell) : LoopSt :=
  u.cellLoopP ps u.processEveryN 0 u.cells u.loopInit

/-- universe.py, Universe.run lines 126-127: the offspring merge.  The
guard is all-or-nothing: the buffer is appended only when the whole of it
fits under max_cells, and dropped entirely otherwise. -/
def Universe.mergedCells (u : Universe) (s : LoopSt) : List Cell :=
  if s.offspring ≠ [] ∧ s.updated.length + s.offspring.length ≤ u.max_cells
  then s.updated ++ s.offspring else s.updated

/-- universe.py, _create_foods: one Food per chunk with a fresh uuid and
a uniform random position, appended in chunk order; ids and positions are
draw streams indexed by the chunk position. -/
def mkFoods (ids : ℕ → ℕ) (pos : ℕ → ℚ × ℚ) : ℕ → List ℚ → List Food
  | _, [] => []
  | i, e :: es =>
    { id := ids i, energy := e, position := pos i } :: mkFoods ids pos (i + 1) es

/-- universe.py, _create_venoms: toxicity = chunk * venom_energy_to_toxicity. -/
def mkVenoms (conv : ℚ) (ids : ℕ → ℕ) (pos : ℕ → ℚ × ℚ) :
    ℕ → List ℚ → List Venom
  | _, [] => []
  | i, e :: es =>
    { id := ids i, toxicity := e * conv, position := pos i }
      :: mkVenoms conv ids pos (i + 1) es

/-- The random draws consumed by one call of Universe.run: the
uniform(0.8, 0.99) factor, the partition draws for the food and venom
pools, and the uuid and position streams of _create_foods and
_create_venoms. -/
structure RunDraws where
  uniform_waste : ℚ
  food_part : PartDraws
  venom_part : PartDraws
  food_ids : ℕ → ℕ
  food_positions : ℕ → ℚ × ℚ
  venom_ids : ℕ → ℕ
  venom_positions : ℕ → ℚ × ℚ

/-- The observable outcome of Universe.run: the mutated universe, the
returned tuple (foods_created, venoms_created, offspring), and the ghost
list of processed snapshot indices. -/
structure RunResult where
  u : Universe
  foods_created : List Food
  venoms_created : List Venom
  offspring : List Cell
  processed : List ℕ
  deriving Repr

/-- universe.py, Universe.run lines 125-145, everything after the
per-cell loop: offspring merge, the every-50-cycles resource block (which
also adds input_energy to the ledger), degrade_all with its own cleanup,
and the final cleanup pass.  Freshly created resources are degraded in
the same tick, exactly as in the source. -/
def Universe.postLoop (u : Universe) (d : RunDraws) (input_energy : ℚ)
    (cycle_count : ℕ) (s : LoopSt) : RunResult :=
  let cells2 := u.mergedCells s
  let res :=
    if cycle_count % 50 = 0 ∧ cells2.length < u.max_cells then
      let usable := input_energy * u.waste_factor * d.uniform_waste
      let ef := usable * u.ratio
      let ev := usable * (1 - u.ratio)
      let fc := mkFoods d.food_ids d.food_positions 0
        (random_partition ef u.min_unit_food u.max_new_foods d.food_part)
      let vc := mkVenoms u.venom_energy_to_toxicity d.venom_ids
        d.venom_positions 0
        (random_partition ev u.min_unit_venom u.max_new_venoms d.venom_part)
      (s.foods ++ fc, s.venoms ++ vc, u.energy + input_energy, fc, vc)
    else (s.foods, s.venoms, u.energy, ([] : List Food), ([] : List Venom))
  let foods3 := res.1.map (fun f => f.degrade u.food_degrade_factor)
  let venoms3 := res.2.1.map (fun v => v.degrade u.venom_degrade_factor)
  let foods4 := if u.cleanup_depleted
    then foods3.filter (fun f => decide (0 < f.energy)) else foods3
  let venoms4 := if u.cleanup_depleted
    then venoms3.filter (fun v => decide (0 < v.toxicity)) else venoms3
  let cells3 := if u.cleanup_depleted
    then cells2.filter (fun c => decide (0 < c.energy)) else cells2
  let foods5 := if u.cleanup_depleted
    then foods4.filter (fun f => decide (0 < f.energy)) else foods4
  let venoms5 := if u.cleanup_depleted
    then venoms4.filter (fun v => decide (0 < v.toxicity)) else venoms4
  { u := { u with
      foods := foods5
      venoms := venoms5
      cells := cells3
      energy := res.2.2.1 }
    foods_created := res.2.2.2.1
    venoms_created := res.2.2.2.2
    offspring := s.offspring
    processed := s.processed }

/-- universe.py, Universe.run.  The spatial grid update at the start of
the cycle only fills self._spatial_grid, which nothing on the run path
reads (_interact_partial scans self.foods and self.venoms directly), so
it has no observable effect and is omitted.  process_every_n is computed
first and can raise ZeroDivisionError (see processEveryNChecked), then
the per-cell loop runs and can raise through the step, and only then the
merge, resource and cleanup phases execute. -/
def Universe.run (step : Cell → Except PyErr (Cell × Option Cell))
    (d : RunDraws) (u : Universe) (input_energy : ℚ) (cycle_count : ℕ) :
    Except PyErr RunResult :=
  match u.processEveryNChecked with
  | .error e => .error e
  | .ok pen =>
    match u.cellLoop step pen 0 u.cells u.loopInit with
    | .error e => .error e
    | .ok s => .ok (u.postLoop d input_energy cycle_count s)

/-- Deterministic draw record for concrete run fixtures. -/
def d0 : RunDraws :=
  { uniform_waste := 9/10
    food_part := wPartDraws
    venom_part := wPartDraws
    food_ids := fun _ => 0
    food_positions := fun _ => (0, 0)
    venom_ids := fun _ => 0
    venom_positions := fun _ => (0, 0) }

/-- Universe with a single live cell, for the C1 witness. -/
def wU1 : Universe :=
  { cells := [{ energy := 40, position := (50, 50) }] }

/-- The step that leaves the cell unchanged and yields no offspring. -/
def psId : Cell → Cell × Option Cell := fun c => (c, none)

/-- Four live cells with max_cells = 4, for the C3 counterexample: the
population exceeds 0.8 * max_cells, so process_every_n = 2 and the cells
at odd indices are skipped. -/
def wU3 : Universe :=
  { max_cells := 4
    cells := [{ energy := 10, position := (10, 10) },
              { energy := 10, position := (20, 20) },
              { energy := 10, position := (30, 30) },
              { energy := 10, position := (40, 40) }] }

/-- Universe with no cells and a ledger of 100, for the C4 counterexample. -/
def wU4 : Universe := { energy := 100 }

/-- The two live cells of the C5 counterexample universe. -/
def wC5a : Cell := { energy := 20, position := (10, 10) }

def wC5b : Cell := { energy := 20, position := (20, 20) }

/-- Universe with two live cells and max_cells = 3: one more cell fits
under the cap, but a two-offspring buffer does not. -/
def wU5 : Universe := { max_cells := 3, cells := [wC5a, wC5b] }

/-- The offspring every cell produces under the psChild step. -/
def wChild : Cell := { energy := 10, position := (60, 60) }

/-- A step whose every call reproduces: the cell is unchanged and wChild
is returned as offspring. -/
def psChild : Cell → Cell × Option Cell := fun c => (c, some wChild)

/-! ## Theorems -/

/-- Claim C6: for every Universe produced by __init__, get_state does not
return a snapshot — it raises AttributeError, because it reads the
attribute touch_radius_food2 that __init__ never assigns.  (The code bug
for claim C6.) -/
theorem get_state_attribute_error (ie r wf w h conv fdf vdf : ℚ)
    (cd : Bool) (mnf mnv : ℕ) (muf muv : ℚ) (mc : ℕ) (ccr : ℚ)
    (bm : String) (br : ℚ) (u : Universe)
    (hinit : Universe.init ie r wf w h conv fdf vdf cd mnf mnv muf muv
      mc ccr bm br = .ok u) :
    u.getState = .error (.attributeError "touch_radius_food2") := by
  unfold Universe.init at hinit
  split_ifs at hinit
  all_goals
    first
    | exact Except.noConfusion hinit
    | (simp only [Except.ok.injEq] at hinit; subst hinit; rfl)

/-- Witness for C6 at the default construction parameters. -/
theorem get_state_attribute_error_inst :
    (Universe.init 0 (1/2) (19/20) 1000 1000 1 (39/50) (4/5) true 6 6 1 1
      500 100 "bounce" (8/10) = .ok wU6) ∧
    wU6.getState = .error (.attributeError "touch_radius_food2") := by
  have h : Universe.init 0 (1/2) (19/20) 1000 1000 1 (39/50) (4/5) true 6 6
      1 1 500 100 "bounce" (8/10) = .ok wU6 := by
    norm_num [Universe.init, wU6]
  exact ⟨h, get_state_attribute_error 0 (1/2) (19/20) 1000 1000 1 (39/50)
    (4/5) true 6 6 1 1 500 100 "bounce" (8/10) wU6 h⟩

theorem pyWeights_length (cs : List ℚ) :
    ∀ last, (pyWeights cs last).length = cs.length + 1 := by
  induction cs with
  | nil => intro last; simp [pyWeights]
  | cons c cs ih => intro last; simp [pyWeights, ih]

theorem pyWeights_sum (cs : List ℚ) :
    ∀ last, (pyWeights cs last).sum = 1 - last := by
  induction cs with
  | nil => intro last; simp [pyWeights]
  | cons c cs ih =>
    intro last
    simp only [pyWeights, List.sum_cons, ih]
    ring

theorem pyWeights_nonneg (cs : List ℚ) :
    ∀ last, cs.Sorted (· ≤ ·) → (∀ x ∈ cs, x ≤ 1) → last ≤ 1 →
      (∀ x ∈ cs, last ≤ x) → ∀ w ∈ pyWeights cs last, 0 ≤ w := by
  induction cs with
  | nil =>
    intro last _ _ hl _ w hw
    simp only [pyWeights, List.mem_singleton] at hw
    rw [hw]; linarith
  | cons c cs ih =>
    intro last hs h1 hl hlast w hw
    simp only [pyWeights, List.mem_cons] at hw
    rcases hw with h | h
    · have hc := hlast c (by simp)
      rw [h]; linarith
    · exact ih c (List.sorted_cons.mp hs).2
        (fun x hx => h1 x (List.mem_cons_of_mem c hx))
        (h1 c (by simp))
        (fun x hx => (List.sorted_cons.mp hs).1 x hx) w h

theorem zipWith_linear_sum (r : ℚ) :
    ∀ (bs ws : List ℚ), bs.length = ws.length →
      (List.zipWith (fun b w => b + r * w) bs ws).sum = bs.sum + r * ws.sum := by
  intro bs
  induction bs with
  | nil =>
    intro ws h
    have hw : ws = [] := by
      cases ws with
      | nil => rfl
      | cons a as => simp at h
    subst hw
    simp
  | cons b bs ih =>
    intro ws h
    cases ws with
    | nil => simp at h
    | cons w ws =>
      simp only [List.zipWith_cons_cons, List.sum_cons]
      rw [ih ws (by simpa using h)]
      ring

theorem zipWith_linear_ge (r mu : ℚ) (hr : 0 ≤ r) :
    ∀ (bs ws : List ℚ), (∀ b ∈ bs, mu ≤ b) → (∀ w ∈ ws, 0 ≤ w) →
      ∀ x ∈ List.zipWith (fun b w => b + r * w) bs ws, mu ≤ x := by
  intro bs
  induction bs with
  | nil => intro ws _ _ x hx; simp at hx
  | cons b bs ih =>
    intro ws hb hw x hx
    cases ws with
    | nil => simp at hx
    | cons w ws =>
      simp only [List.zipWith_cons_cons, List.mem_cons] at hx
      rcases hx with h | h
      · have h1 := hb b (by simp)
        have h2 := hw w (by simp)
        rw [h]
        nlinarith
      · exact ih ws (fun y hy => hb y (List.mem_cons_of_mem b hy))
          (fun y hy => hw y (List.mem_cons_of_mem w hy)) x h

/-- Claim C2, counterexample: with max_parts = 0 the code still produces
one chunk (max(1, min(5, 0)) = 1), so the claimed length bound
len ≤ min(floor(total/min_unit), max_parts) = 0 fails. -/
theorem partition_maxparts_zero_cex :
    (random_partition 5 1 0 wPartDraws).length = 1 ∧
    min ⌊(5:ℚ)/1⌋ (0:ℤ) = 0 ∧ ¬ ((1:ℤ) ≤ 0) := by
  refine ⟨?_, by norm_num, by norm_num⟩
  norm_num [random_partition, wPartDraws, pyWeights]

/-- Claim C2, amended by requiring max_parts at least 1: partition of a
total below min_unit is empty, and otherwise the chunks sum to the total
up to the 1e-12 tolerance, there are between 1 and
min(floor(total/min_unit), max_parts) chunks, and every chunk is at least
min_unit. -/
theorem partition_spec_amended (total min_unit : ℚ) (cap : ℕ) (d : PartDraws)
    (hmu : 0 < min_unit) (hcap : 1 ≤ cap) (hd : ValidPart d) :
    (total < min_unit → random_partition total min_unit cap d = []) ∧
    (min_unit ≤ total →
      |(random_partition total min_unit cap d).sum - total| ≤ 1/10^12 ∧
      1 ≤ (random_partition total min_unit cap d).length ∧
      ((random_partition total min_unit cap d).length : ℤ) ≤
        min ⌊total / min_unit⌋ (cap : ℤ) ∧
      ∀ x ∈ random_partition total min_unit cap d, min_unit ≤ x) := by
  constructor
  · intro hlt
    simp [random_partition, if_pos hlt]
  · intro hge
    have hnotlt : ¬ total < min_unit := not_lt.mpr hge
    have hfl1 : (1:ℤ) ≤ ⌊total / min_unit⌋ := by
      rw [Int.le_floor]
      push_cast
      rw [le_div_iff₀ hmu]
      linarith
    have hfl_pos : ¬ (⌊total / min_unit⌋ ≤ 0) := by omega
    simp only [random_partition, if_neg hnotlt, if_neg hfl_pos]
    set mp : ℕ := max 1 (min (⌊total / min_unit⌋).toNat cap) with hmp
    have hmp1 : 1 ≤ mp := le_max_left 1 _
    have hn := hd.1 mp hmp1
    set n := d.n_draw mp with hn_def
    have hn1 : 1 ≤ n := hn.1
    have hncap : n ≤ mp := hn.2
    have htoNat1 : 1 ≤ (⌊total / min_unit⌋).toNat := by omega
    have hnfl : n ≤ (⌊total / min_unit⌋).toNat := by omega
    have hncap2 : n ≤ cap := by omega
    have hnInt : (n:ℤ) ≤ ⌊total / min_unit⌋ := by omega
    have hfloor_le : ((⌊total / min_unit⌋ : ℤ) : ℚ) ≤ total / min_unit :=
      Int.floor_le _
    have hrem : 0 ≤ total - n * min_unit := by
      have h1 : (n:ℚ) ≤ ((⌊total / min_unit⌋ : ℤ) : ℚ) := by exact_mod_cast hnInt
      have h3 : (n:ℚ) * min_unit ≤ (total / min_unit) * min_unit :=
        mul_le_mul_of_nonneg_right (le_trans h1 hfloor_le) (le_of_lt hmu)
      rw [div_mul_cancel₀ total (ne_of_gt hmu)] at h3
      linarith
    have hlenbound : ∀ (l : List ℚ), l.length = n →
        ((l.length : ℤ) ≤ min ⌊total / min_unit⌋ (cap : ℤ)) := by
      intro l hl
      rw [hl]
      exact le_min hnInt (by exact_mod_cast hncap2)
    by_cases hsmall : total - n * min_unit ≤ 1/10^12
    · rw [if_pos hsmall]
      have hperm := hd.2.2 (List.replicate n min_unit)
      have hsum : (d.shuffle (List.replicate n min_unit)).sum = n * min_unit := by
        rw [hperm.sum_eq, List.sum_replicate, nsmul_eq_mul]
      have hlen : (d.shuffle (List.replicate n min_unit)).length = n := by
        rw [hperm.length_eq, List.length_replicate]
      refine ⟨?_, ?_, hlenbound _ hlen, ?_⟩
      · rw [hsum]
        rw [abs_le]
        constructor <;> [linarith; linarith]
      · rw [hlen]; exact hn1
      · intro x hx
        have := List.eq_of_mem_replicate (hperm.mem_iff.mp hx)
        rw [this]
    · rw [if_neg hsmall]
      have hrem_pos : 0 < total - n * min_unit := by
        push_neg at hsmall
        have : (0:ℚ) < 1/10^12 := by norm_num
        linarith
      set cutsL := List.insertionSort (· ≤ ·) ((List.range (n - 1)).map d.cuts)
        with hcutsL
      have hcperm : cutsL.Perm ((List.range (n - 1)).map d.cuts) :=
        List.perm_insertionSort _ _
      have hclen : cutsL.length = n - 1 := by
        rw [hcperm.length_eq, List.length_map, List.length_range]
      have hcsorted : cutsL.Sorted (· ≤ ·) := List.sorted_insertionSort _ _
      have hcmem : ∀ x ∈ cutsL, 0 ≤ x ∧ x < 1 := by
        intro x hx
        have hx2 := hcperm.mem_iff.mp hx
        rcases List.mem_map.mp hx2 with ⟨i, _, hi⟩
        rw [← hi]
        exact hd.2.1 i
      have hwlen : (pyWeights cutsL 0).length = n := by
        rw [pyWeights_length, hclen]
        omega
      have hwsum : (pyWeights cutsL 0).sum = 1 := by
        rw [pyWeights_sum]; norm_num
      have hwnn : ∀ w ∈ pyWeights cutsL 0, 0 ≤ w :=
        pyWeights_nonneg cutsL 0 hcsorted
          (fun x hx => le_of_lt (hcmem x hx).2) (by norm_num)
          (fun x hx => (hcmem x hx).1)
      set chunks := List.zipWith
        (fun b w => b + (total - n * min_unit) * w)
        (List.replicate n min_unit) (pyWeights cutsL 0) with hchunks
      have hzlen : chunks.length = n := by
        rw [hchunks, List.length_zipWith, List.length_replicate, hwlen, min_self]
      have hzsum : chunks.sum = total := by
        rw [hchunks,
          zipWith_linear_sum _ _ _ (by rw [List.length_replicate, hwlen]),
          List.sum_replicate, nsmul_eq_mul, hwsum]
        ring
      have hperm := hd.2.2 chunks
      refine ⟨?_, ?_, hlenbound _ (by rw [hperm.length_eq, hzlen]), ?_⟩
      · rw [hperm.sum_eq, hzsum]
        simp only [sub_self, abs_zero]
        norm_num
      · rw [hperm.length_eq, hzlen]; exact hn1
      · intro x hx
        refine zipWith_linear_ge _ _ (le_of_lt hrem_pos)
          (List.replicate n min_unit) (pyWeights cutsL 0) ?_ hwnn x
          (hperm.mem_iff.mp hx)
        intro b hb
        rw [List.eq_of_mem_replicate hb]

/-- Witness for C2 at total 10, min_unit 3, max_parts 2, with the
deterministic valid draws: the partition is [5, 5]. -/
theorem partition_spec_amended_inst :
    ((0:ℚ) < 3 ∧ 1 ≤ 2 ∧ ValidPart wPartDraws) ∧
    (((10:ℚ) < 3 → random_partition 10 3 2 wPartDraws = []) ∧
    ((3:ℚ) ≤ 10 →
      |(random_partition 10 3 2 wPartDraws).sum - 10| ≤ 1/10^12 ∧
      1 ≤ (random_partition 10 3 2 wPartDraws).length ∧
      ((random_partition 10 3 2 wPartDraws).length : ℤ) ≤
        min ⌊(10:ℚ) / 3⌋ (2 : ℤ) ∧
      ∀ x ∈ random_partition 10 3 2 wPartDraws, 3 ≤ x)) := by
  have hv : ValidPart wPartDraws :=
    ⟨fun m hm => ⟨hm, le_refl m⟩,
     fun i => ⟨by norm_num [wPartDraws], by norm_num [wPartDraws]⟩,
     fun l => List.Perm.refl l⟩
  exact ⟨⟨by norm_num, by norm_num, hv⟩,
    partition_spec_amended 10 3 2 wPartDraws (by norm_num) (by norm_num) hv⟩

/-- foodContact keeps the cell energy and the food energy nonnegative. -/
theorem foodContact_nonneg (pos : ℚ × ℚ) (cr ce : ℚ) (f : Food)
    (hce : 0 ≤ ce) (hf : 0 ≤ f.energy) :
    0 ≤ (foodContact pos cr ce f).1 ∧ 0 ≤ (foodContact pos cr ce f).2.energy := by
  have hden : (0:ℚ) < f.energy + 1/10 := by linarith
  have hdiv : 0 ≤ ce / (f.energy + 1/10) := div_nonneg hce (le_of_lt hden)
  have hmin : 0 ≤ min (ce / (f.energy + 1/10)) 2 := le_min hdiv (by norm_num)
  have hrate : (0:ℚ) ≤ 1/10 * min (ce / (f.energy + 1/10)) 2 :=
    mul_nonneg (by norm_num) hmin
  have hamt0 : 0 ≤ f.energy * (1/10 * min (ce / (f.energy + 1/10)) 2) :=
    mul_nonneg hf hrate
  have hamt : 0 ≤ min (f.energy * (1/10 * min (ce / (f.energy + 1/10)) 2)) f.energy :=
    le_min hamt0 hf
  simp only [foodContact]
  split_ifs <;> constructor <;> dsimp only <;> linarith

/-- venomContact keeps the cell energy and the venom toxicity nonnegative. -/
theorem venomContact_nonneg (pos : ℚ × ℚ) (cr ce : ℚ) (v : Venom)
    (hce : 0 ≤ ce) (hv : 0 ≤ v.toxicity) :
    0 ≤ (venomContact pos cr ce v).1 ∧ 0 ≤ (venomContact pos cr ce v).2.toxicity := by
  simp only [venomContact]
  split_ifs <;> constructor <;> dsimp only <;> linarith

/-- foodPass keeps the cell energy and every food energy nonnegative. -/
theorem foodPass_nonneg (pos : ℚ × ℚ) (cr r2 : ℚ) (fs : List Food) :
    ∀ (ce : ℚ), 0 ≤ ce → (∀ f ∈ fs, 0 ≤ f.energy) →
      0 ≤ (foodPass pos cr r2 ce fs).1 ∧
      ∀ g ∈ (foodPass pos cr r2 ce fs).2, 0 ≤ g.energy := by
  induction fs with
  | nil =>
    intro ce hce _
    exact ⟨by simpa [foodPass] using hce, by simp [foodPass]⟩
  | cons f fs ih =>
    intro ce hce hf
    simp only [foodPass]
    by_cases hnear : 0 < f.energy ∧ dist2 pos f.position ≤ r2
    · rw [if_pos hnear]
      have hc := foodContact_nonneg pos cr ce f hce (hf f (by simp))
      have ht := ih (foodContact pos cr ce f).1 hc.1
        (fun g hg => hf g (List.mem_cons_of_mem f hg))
      refine ⟨ht.1, ?_⟩
      intro g hg
      rcases List.mem_cons.mp hg with h | h
      · rw [h]; exact hc.2
      · exact ht.2 g h
    · rw [if_neg hnear]
      have ht := ih ce hce (fun g hg => hf g (List.mem_cons_of_mem f hg))
      refine ⟨ht.1, ?_⟩
      intro g hg
      rcases List.mem_cons.mp hg with h | h
      · rw [h]; exact hf f (by simp)
      · exact ht.2 g h

/-- venomPass keeps the cell energy and every venom toxicity nonnegative. -/
theorem venomPass_nonneg (pos : ℚ × ℚ) (cr r2 : ℚ) (vs : List Venom) :
    ∀ (ce : ℚ), 0 ≤ ce → (∀ v ∈ vs, 0 ≤ v.toxicity) →
      0 ≤ (venomPass pos cr r2 ce vs).1 ∧
      ∀ w ∈ (venomPass pos cr r2 ce vs).2, 0 ≤ w.toxicity := by
  induction vs with
  | nil =>
    intro ce hce _
    exact ⟨by simpa [venomPass] using hce, by simp [venomPass]⟩
  | cons v vs ih =>
    intro ce hce hv
    simp only [venomPass]
    by_cases hnear : 0 < v.toxicity ∧ dist2 pos v.position ≤ r2
    · rw [if_pos hnear]
      have hc := venomContact_nonneg pos cr ce v hce (hv v (by simp))
      have ht := ih (venomContact pos cr ce v).1 hc.1
        (fun w hw => hv w (List.mem_cons_of_mem v hw))
      refine ⟨ht.1, ?_⟩
      intro w hw
      rcases List.mem_cons.mp hw with h | h
      · rw [h]; exact hc.2
      · exact ht.2 w h
    · rw [if_neg hnear]
      have ht := ih ce hce (fun w hw => hv w (List.mem_cons_of_mem v hw))
      refine ⟨ht.1, ?_⟩
      intro w hw
      rcases List.mem_cons.mp hw with h | h
      · rw [h]; exact hv v (by simp)
      · exact ht.2 w h

/-- Claim C7: for every cell with nonnegative energy, foods with
nonnegative energy and venoms with nonnegative toxicity, resolving
interactions for that cell leaves every food energy, every venom toxicity
and the cell energy nonnegative. -/
theorem interact_preserves_nonneg (u : Universe) (c : Cell)
    (foods : List Food) (venoms : List Venom)
    (hc : 0 ≤ c.energy) (hf : ∀ f ∈ foods, 0 ≤ f.energy)
    (hv : ∀ v ∈ venoms, 0 ≤ v.toxicity) :
    0 ≤ (u.interactPartial c foods venoms).1.energy ∧
    (∀ f ∈ (u.interactPartial c foods venoms).2.1, 0 ≤ f.energy) ∧
    (∀ v ∈ (u.interactPartial c foods venoms).2.2, 0 ≤ v.toxicity) := by
  by_cases h0 : c.energy ≤ 0
  · simp only [Universe.interactPartial, if_pos h0]
    exact ⟨hc, hf, hv⟩
  · simp only [Universe.interactPartial, if_neg h0]
    have hfp := foodPass_nonneg c.position (c.diameter / 2)
      u.cell_check_radius2 foods c.energy hc hf
    have hvp := venomPass_nonneg c.position (c.diameter / 2)
      u.cell_check_radius2 venoms
      (foodPass c.position (c.diameter / 2) u.cell_check_radius2 c.energy foods).1
      hfp.1 hv
    exact ⟨hvp.1, hfp.2, hvp.2⟩

/-- Witness for C7 on a concrete universe with one food and one venom in
contact with the cell. -/
theorem interact_preserves_nonneg_inst :
    (0 ≤ cellC7.energy ∧ (∀ f ∈ foodsC7, 0 ≤ f.energy) ∧
      (∀ v ∈ venomsC7, 0 ≤ v.toxicity)) ∧
    (0 ≤ (uC7.interactPartial cellC7 foodsC7 venomsC7).1.energy ∧
    (∀ f ∈ (uC7.interactPartial cellC7 foodsC7 venomsC7).2.1, 0 ≤ f.energy) ∧
    (∀ v ∈ (uC7.interactPartial cellC7 foodsC7 venomsC7).2.2, 0 ≤ v.toxicity)) :=
  ⟨⟨by norm_num [cellC7], by simp [foodsC7], by simp [venomsC7]⟩,
   interact_preserves_nonneg uC7 cellC7 foodsC7 venomsC7
     (by norm_num [cellC7]) (by simp [foodsC7]) (by simp [venomsC7])⟩

/-- Claim C10, counterexample: a venom of toxicity 1/200 in contact with a
cell of energy 1.  The damage is 9/4400000, but the post-subtraction
toxicity falls at or below the 0.01 floor and is zeroed, so the venom
loses its whole 1/200 toxicity: the decrease is not 0.4 times the damage,
and the harm absorbed by the cell does not exceed the toxicity consumed. -/
theorem venom_floor_breaks_exact_ratio_cex :
    venomC10.toxicity - (venomContact (0, 0) 0 1 venomC10).2.toxicity = 1/200 ∧
    1 - (venomContact (0, 0) 0 1 venomC10).1 = 9/4400000 ∧
    ¬ (venomC10.toxicity - (venomContact (0, 0) 0 1 venomC10).2.toxicity
        = (4/10) * (1 - (venomContact (0, 0) 0 1 venomC10).1)) ∧
    ¬ (venomC10.toxicity - (venomContact (0, 0) 0 1 venomC10).2.toxicity
        < 1 - (venomContact (0, 0) 0 1 venomC10).1) := by
  norm_num [venomContact, venomDmg, venomC10, dist2, min_def]

/-- Claim C10, amended: one venom contact subtracts dmg from the cell
energy (then clamps at 0) and 0.4 * dmg from the toxicity unless the
remainder falls at or below 0.01, in which case the toxicity is floored to
0; when the floor does not fire, the toxicity consumed is exactly
0.4 * dmg and is strictly less than the damage whenever dmg is positive. -/
theorem venom_contact_transfer_amended (pos : ℚ × ℚ) (cr ce : ℚ) (v : Venom)
    (h0 : 0 < v.toxicity)
    (hct : dist2 pos v.position ≤
      (cr + v.toxicity / 2) * (cr + v.toxicity / 2)) :
    (venomContact pos cr ce v).1 =
      (if ce - venomDmg ce v ≤ 0 then 0 else ce - venomDmg ce v) ∧
    (venomContact pos cr ce v).2.toxicity =
      (if v.toxicity - venomDmg ce v * (4/10) ≤ 1/100 then 0
       else v.toxicity - venomDmg ce v * (4/10)) ∧
    (¬ (v.toxicity - venomDmg ce v * (4/10) ≤ 1/100) →
      v.toxicity - (venomContact pos cr ce v).2.toxicity = venomDmg ce v * (4/10) ∧
      (0 < venomDmg ce v →
        v.toxicity - (venomContact pos cr ce v).2.toxicity < venomDmg ce v)) := by
  simp only [venomContact]
  rw [if_pos h0, if_pos hct]
  dsimp only
  refine ⟨rfl, rfl, ?_⟩
  intro hfloor
  rw [if_neg hfloor]
  constructor
  · ring
  · intro hdmg
    have hlt : venomDmg ce v * (4/10) < venomDmg ce v := by linarith
    linarith

/-- Witness for C10 on a venom of toxicity 1 touching a cell of energy 1:
dmg = 9/110 and the floor does not fire. -/
theorem venom_contact_transfer_amended_inst :
    ((0:ℚ) < venomC10w.toxicity ∧
      dist2 (0, 0) venomC10w.position ≤
        (0 + venomC10w.toxicity / 2) * (0 + venomC10w.toxicity / 2)) ∧
    ((venomContact (0, 0) 0 1 venomC10w).1 =
      (if 1 - venomDmg 1 venomC10w ≤ 0 then 0 else 1 - venomDmg 1 venomC10w) ∧
    (venomContact (0, 0) 0 1 venomC10w).2.toxicity =
      (if venomC10w.toxicity - venomDmg 1 venomC10w * (4/10) ≤ 1/100 then 0
       else venomC10w.toxicity - venomDmg 1 venomC10w * (4/10)) ∧
    (¬ (venomC10w.toxicity - venomDmg 1 venomC10w * (4/10) ≤ 1/100) →
      venomC10w.toxicity - (venomContact (0, 0) 0 1 venomC10w).2.toxicity
        = venomDmg 1 venomC10w * (4/10) ∧
      (0 < venomDmg 1 venomC10w →
        venomC10w.toxicity - (venomContact (0, 0) 0 1 venomC10w).2.toxicity
          < venomDmg 1 venomC10w))) :=
  ⟨⟨by norm_num [venomC10w], by norm_num [venomC10w, dist2]⟩,
   venom_contact_transfer_amended (0, 0) 0 1 venomC10w
     (by norm_num [venomC10w]) (by norm_num [venomC10w, dist2])⟩

/-- Claim C9: for every cell whose reproduction trial succeeds, if
deducting child_energy plus the fixed overhead of 2 leaves the parent with
energy at most 0, then reproduce returns no offspring and the parent is
dead with energy pinned to 0; the offspring is instantiated exactly when
the remaining energy is strictly positive. -/
theorem reproduce_death_preempts_offspring (c : Cell) (d : ReproDraws)
    (h : c.canReproduce d = true) :
    (c.energy - (c.energy * (1/2) + 2) ≤ 0 →
      (c.reproduce d).2 = none ∧ (c.reproduce d).1.energy = 0) ∧
    ((c.reproduce d).2.isSome = true ↔ 0 < c.energy - (c.energy * (1/2) + 2)) := by
  unfold Cell.reproduce
  rw [h]
  simp only [if_true]
  by_cases hle : c.energy - (c.energy * (1/2) + 2) ≤ 0
  · rw [if_pos hle]
    refine ⟨fun _ => ⟨rfl, rfl⟩, ?_⟩
    show (none : Option Cell).isSome = true ↔ _
    simp only [Option.isSome_none, Bool.false_eq_true, false_iff, not_lt]
    exact hle
  · rw [if_neg hle]
    refine ⟨fun hc => absurd hc hle, ?_⟩
    show (some _).isSome = true ↔ _
    simp only [Option.isSome_some, true_iff]
    exact lt_of_not_le hle

/-- Witness for C9 at a concrete parent: the trial succeeds, the deduction
leaves 3 - (3/2 + 2) = -1/2 at most 0, so no offspring and energy 0. -/
theorem reproduce_death_preempts_offspring_inst :
    wCellC9.canReproduce wDrawsC9 = true ∧
    ((wCellC9.energy - (wCellC9.energy * (1/2) + 2) ≤ 0 →
      (wCellC9.reproduce wDrawsC9).2 = none ∧
        (wCellC9.reproduce wDrawsC9).1.energy = 0) ∧
    ((wCellC9.reproduce wDrawsC9).2.isSome = true ↔
      0 < wCellC9.energy - (wCellC9.energy * (1/2) + 2))) :=
  ⟨by norm_num [Cell.canReproduce, wCellC9, wDrawsC9, Bool.and_eq_true,
      decide_eq_true_eq],
   reproduce_death_preempts_offspring wCellC9 wDrawsC9
    (by norm_num [Cell.canReproduce, wCellC9, wDrawsC9, Bool.and_eq_true,
      decide_eq_true_eq])⟩

/-- Claim C8, counterexample: in wrap mode a cell starting at x = -150 in a
100-wide universe is moved to x = -50, still outside [0, width], so
boundary enforcement does not always leave the position inside the
rectangle. -/
theorem wrap_large_overshoot_cex :
    (wrapU.apply_bounds cellC8cex).position.1 = -50 ∧
    ¬ wrapU.inBounds (wrapU.apply_bounds cellC8cex).position := by
  norm_num [Universe.apply_bounds, Universe.inBounds, wrapU, cellC8cex]

/-- Claim C8, amended: bounce mode always lands in [0, width] x [0, height];
wrap mode keeps velocity unchanged, moves each coordinate by exactly one
bounds-extent or not at all, and lands inside the rectangle provided each
starting coordinate overshoots the valid range by at most one extent. -/
theorem apply_bounds_in_bounds_amended (u : Universe) (c : Cell)
    (hw : 0 < u.width) (hh : 0 < u.height) :
    (u.boundary_mode ≠ "wrap" → u.inBounds (u.apply_bounds c).position) ∧
    (u.boundary_mode = "wrap" →
      ((u.apply_bounds c).vx = c.vx ∧ (u.apply_bounds c).vy = c.vy) ∧
      ((u.apply_bounds c).position.1 = c.position.1 ∨
       (u.apply_bounds c).position.1 = c.position.1 + u.width ∨
       (u.apply_bounds c).position.1 = c.position.1 - u.width) ∧
      ((u.apply_bounds c).position.2 = c.position.2 ∨
       (u.apply_bounds c).position.2 = c.position.2 + u.height ∨
       (u.apply_bounds c).position.2 = c.position.2 - u.height) ∧
      (-u.width ≤ c.position.1 → c.position.1 ≤ 2 * u.width →
       -u.height ≤ c.position.2 → c.position.2 ≤ 2 * u.height →
        u.inBounds (u.apply_bounds c).position)) := by
  constructor
  · intro hm
    simp only [Universe.apply_bounds, Universe.inBounds, if_neg hm]
    split_ifs <;> refine ⟨?_, ?_, ?_, ?_⟩ <;> (try dsimp only) <;> linarith
  · intro hm
    simp only [Universe.apply_bounds, Universe.inBounds, if_pos hm]
    refine ⟨⟨by trivial, by trivial⟩, ?_, ?_, ?_⟩
    · split_ifs <;>
        first
        | exact Or.inl rfl
        | exact Or.inr (Or.inl rfl)
        | exact Or.inr (Or.inr rfl)
    · split_ifs <;>
        first
        | exact Or.inl rfl
        | exact Or.inr (Or.inl rfl)
        | exact Or.inr (Or.inr rfl)
    · intro h1 h2 h3 h4
      split_ifs <;> refine ⟨?_, ?_, ?_, ?_⟩ <;> (try dsimp only) <;> linarith

/-- Witness for C8 at a concrete wrap-mode universe: the cell at (-30, 150)
with one-extent overshoot on each axis. -/
theorem apply_bounds_in_bounds_amended_inst :
    (0 : ℚ) < wrapU.width ∧ (0 : ℚ) < wrapU.height ∧
    ((wrapU.boundary_mode ≠ "wrap" →
        wrapU.inBounds (wrapU.apply_bounds cellC8w).position) ∧
     (wrapU.boundary_mode = "wrap" →
       ((wrapU.apply_bounds cellC8w).vx = cellC8w.vx ∧
        (wrapU.apply_bounds cellC8w).vy = cellC8w.vy) ∧
       ((wrapU.apply_bounds cellC8w).position.1 = cellC8w.position.1 ∨
        (wrapU.apply_bounds cellC8w).position.1 = cellC8w.position.1 + wrapU.width ∨
        (wrapU.apply_bounds cellC8w).position.1 = cellC8w.position.1 - wrapU.width) ∧
       ((wrapU.apply_bounds cellC8w).position.2 = cellC8w.position.2 ∨
        (wrapU.apply_bounds cellC8w).position.2 = cellC8w.position.2 + wrapU.height ∨
        (wrapU.apply_bounds cellC8w).position.2 = cellC8w.position.2 - wrapU.height) ∧
       (-wrapU.width ≤ cellC8w.position.1 → cellC8w.position.1 ≤ 2 * wrapU.width →
        -wrapU.height ≤ cellC8w.position.2 → cellC8w.position.2 ≤ 2 * wrapU.height →
         wrapU.inBounds (wrapU.apply_bounds cellC8w).position))) :=
  ⟨by norm_num [wrapU], by norm_num [wrapU],
   apply_bounds_in_bounds_amended wrapU cellC8w
     (by norm_num [wrapU]) (by norm_num [wrapU])⟩

/-- With max_cells at least 2 the divisor max_cells // 2 is positive, so
process_every_n is computed without raising and takes the value
processEveryN. -/
theorem processEveryNChecked_ok (u : Universe) (hmc : 2 ≤ u.max_cells) :
    u.processEveryNChecked = .ok u.processEveryN := by
  unfold Universe.processEveryNChecked Universe.processEveryN
  have h2 : ¬ (u.max_cells / 2 = 0) := by omega
  by_cases hpop : (u.cells.length : ℚ) > (u.max_cells : ℚ) * (8/10)
  · rw [if_pos hpop, if_pos hpop, if_neg h2]
  · rw [if_neg hpop, if_neg hpop]

/-- With max_cells at most 1 and at least one live cell, the population
always exceeds 0.8 * max_cells and max_cells // 2 = 0, so computing
process_every_n raises ZeroDivisionError. -/
theorem processEveryNChecked_err (u : Universe) (h : u.cells ≠ [])
    (hmc : u.max_cells ≤ 1) :
    u.processEveryNChecked = .error intZeroDivisionError := by
  unfold Universe.processEveryNChecked
  have hlen : 1 ≤ u.cells.length := List.length_pos.mpr h
  have hpop : (u.cells.length : ℚ) > (u.max_cells : ℚ) * (8/10) := by
    have h1 : (1:ℚ) ≤ (u.cells.length : ℚ) := by exact_mod_cast hlen
    have h2 : (u.max_cells : ℚ) ≤ 1 := by exact_mod_cast hmc
    have h3 : (u.max_cells : ℚ) * (8/10) ≤ 1 * (8/10) :=
      mul_le_mul_of_nonneg_right h2 (by norm_num)
    linarith
  have h2 : u.max_cells / 2 = 0 := by omega
  rw [if_pos hpop, if_pos h2]

/-- Claim C1: Universe.run never completes a tick on a universe with at
least one live cell.  With max_cells at least 2 it raises TypeError,
because cell.run() is called without the required state argument; in the
degenerate configurations max_cells at most 1 it raises
ZeroDivisionError already while computing process_every_n.  (The code
bug for claim C1; with no live cells the tick completes.) -/
theorem run_typeerror_with_live_cell (d : RunDraws) (u : Universe)
    (ie : ℚ) (cc : ℕ) (h : u.cells ≠ []) :
    (2 ≤ u.max_cells →
      Universe.run cellRunCall d u ie cc = .error cellRunTypeError) ∧
    (u.max_cells ≤ 1 →
      Universe.run cellRunCall d u ie cc = .error intZeroDivisionError) := by
  constructor
  · intro hmc
    obtain ⟨c, rest, hc⟩ := List.exists_cons_of_ne_nil h
    unfold Universe.run
    rw [processEveryNChecked_ok u hmc, hc]
    simp [Universe.cellLoop, cellRunCall]
  · intro hmc
    unfold Universe.run
    rw [processEveryNChecked_err u h hmc]

/-- Witness for C1: a default universe (max_cells 500) with one live
cell. -/
theorem run_typeerror_with_live_cell_inst :
    wU1.cells ≠ [] ∧
    ((2 ≤ wU1.max_cells →
        Universe.run cellRunCall d0 wU1 5 1 = .error cellRunTypeError) ∧
     (wU1.max_cells ≤ 1 →
        Universe.run cellRunCall d0 wU1 5 1 = .error intZeroDivisionError)) :=
  ⟨by simp [wU1], run_typeerror_with_live_cell d0 wU1 5 1 (by simp [wU1])⟩

/-- The Except loop with a non-raising step succeeds and agrees with the
pure loop. -/
theorem cellLoop_okStep (u : Universe) (ps : Cell → Cell × Option Cell)
    (pen : ℕ) :
    ∀ (l : List Cell) (i : ℕ) (s : LoopSt),
      u.cellLoop (okStep ps) pen i l s = .ok (u.cellLoopP ps pen i l s) := by
  intro l
  induction l with
  | nil => intro i s; rfl
  | cons c rest ih =>
    intro i s
    simp only [Universe.cellLoop, Universe.cellLoopP, okStep]
    by_cases hi : i % pen = 0
    · rw [if_pos hi, if_pos hi]
      exact ih (i + 1) _
    · rw [if_neg hi, if_neg hi]
      exact ih (i + 1) _

/-- Universe.run with a non-raising step and a non-degenerate cap
(max_cells at least 2, so process_every_n does not raise) returns the
postLoop of the pure loop state. -/
theorem run_okStep (u : Universe) (ps : Cell → Cell × Option Cell)
    (d : RunDraws) (ie : ℚ) (cc : ℕ) (hmc : 2 ≤ u.max_cells) :
    Universe.run (okStep ps) d u ie cc =
      .ok (u.postLoop d ie cc (u.runLoopP ps)) := by
  unfold Universe.run Universe.runLoopP
  simp only [processEveryNChecked_ok u hmc]
  rw [cellLoop_okStep]

/-- postLoop does not change the ghost processed list. -/
theorem postLoop_processed (u : Universe) (d : RunDraws) (ie : ℚ) (cc : ℕ)
    (s : LoopSt) : (u.postLoop d ie cc s).processed = s.processed := by
  unfold Universe.postLoop
  rfl

/-- The enumerate indices of a list shifted by one. -/
theorem range_map_add_succ (n i : ℕ) :
    (List.range (n + 1)).map (fun j => j + i) =
      i :: (List.range n).map (fun j => j + (i + 1)) := by
  rw [List.range_succ_eq_map]
  simp only [List.map_cons, List.map_map, Nat.zero_add]
  congr 1
  apply List.map_congr_left
  intro a _
  simp only [Function.comp_apply]
  omega

/-- The ghost processed list of the pure loop is exactly the enumerate
indices congruent to 0 mod process_every_n. -/
theorem cellLoopP_processed (u : Universe) (ps : Cell → Cell × Option Cell)
    (pen : ℕ) :
    ∀ (l : List Cell) (i : ℕ) (s : LoopSt),
      (u.cellLoopP ps pen i l s).processed =
        s.processed ++
          ((List.range l.length).map (fun j => j + i)).filter
            (fun j => j % pen = 0) := by
  intro l
  induction l with
  | nil => intro i s; simp [Universe.cellLoopP]
  | cons c rest ih =>
    intro i s
    simp only [Universe.cellLoopP, List.length_cons]
    rw [range_map_add_succ, List.filter_cons]
    by_cases hi : i % pen = 0
    · rw [if_pos hi, ih, if_pos (by simpa using hi)]
      rcases hch : (ps c).2 with _ | ch
      · simp only [hch]
        simp [List.append_assoc]
      · simp only [hch]
        split_ifs <;> simp [List.append_assoc]
    · rw [if_neg hi, ih, if_neg (by simpa using hi)]

/-- Claim C3, amended: on each Universe.run around a per-cell step that
does not raise (the real cell.run() call raises, see C1) and in a
configuration where the tick does not abort for unrelated reasons
(max_cells at least 2, positive min-units), the cells advanced are
exactly the snapshot indices i with i % process_every_n = 0, each exactly
once (Nodup); when the population exceeds 0.8 * max_cells,
process_every_n exceeds 1 and the remaining cells are skipped.  The
min-unit hypotheses keep the statement inside the domain where the real
partitioner does not raise on spawn-eligible ticks. -/
theorem run_processes_exactly_modular_indices
    (ps : Cell → Cell × Option Cell) (d : RunDraws) (u : Universe)
    (ie : ℚ) (cc : ℕ) (hmc : 2 ≤ u.max_cells)
    (_hmuf : 0 < u.min_unit_food) (_hmuv : 0 < u.min_unit_venom) :
    ∃ r, Universe.run (okStep ps) d u ie cc = .ok r ∧
      r.processed.Nodup ∧
      ∀ i, i ∈ r.processed ↔ i < u.cells.length ∧ i % u.processEveryN = 0 := by
  have hp : (u.postLoop d ie cc (u.runLoopP ps)).processed =
      ((List.range u.cells.length).map (fun j => j + 0)).filter
        (fun j => j % u.processEveryN = 0) := by
    rw [postLoop_processed, Universe.runLoopP, cellLoopP_processed]
    simp [Universe.loopInit]
  have hmap : (List.range u.cells.length).map (fun j => j + 0) =
      List.range u.cells.length := by simp
  rw [hmap] at hp
  refine ⟨_, run_okStep u ps d ie cc hmc, ?_, ?_⟩
  · rw [hp]
    exact (List.nodup_range _).filter _
  · intro i
    rw [hp]
    simp [List.mem_filter, List.mem_range]

/-- Witness for the amended C3 at the four-cell universe wU3 (max_cells
4, default min-units). -/
theorem run_processes_exactly_modular_indices_inst :
    (2 ≤ wU3.max_cells ∧ 0 < wU3.min_unit_food ∧ 0 < wU3.min_unit_venom) ∧
    (∃ r, Universe.run (okStep psId) d0 wU3 0 1 = .ok r ∧
      r.processed.Nodup ∧
      ∀ i, i ∈ r.processed ↔ i < wU3.cells.length ∧ i % wU3.processEveryN = 0) :=
  ⟨⟨by norm_num [wU3], by norm_num [wU3], by norm_num [wU3]⟩,
   run_processes_exactly_modular_indices psId d0 wU3 0 1
     (by norm_num [wU3]) (by norm_num [wU3]) (by norm_num [wU3])⟩

/-- Claim C3, counterexample: at a universe with four live cells (and
max_cells 4), the real tick advances no cell at all — the first
cell.run() call raises TypeError and Universe.run aborts — so it is not
the case that every cell in the start-of-tick collection is advanced
exactly once.  (Had the call site been repaired, process_every_n = 2
would still skip the odd indices; see wU3_skip_eval.) -/
theorem run_advances_no_cell_cex :
    wU3.cells.length = 4 ∧ wU3.processEveryN = 2 ∧
    Universe.run cellRunCall d0 wU3 0 1 = .error cellRunTypeError := by
  refine ⟨rfl, ?_, ?_⟩
  · norm_num [Universe.processEveryN, wU3]
  · unfold Universe.run
    rw [processEveryNChecked_ok wU3 (by norm_num [wU3])]
    simp [wU3, Universe.cellLoop, cellRunCall]

/-- Around a repaired (non-raising) per-cell step, the tick at wU3 would
advance only the even snapshot indices: process_every_n = 2 and index 1
is skipped. -/
theorem wU3_skip_eval :
    wU3.processEveryN = 2 ∧
    ∃ r, Universe.run (okStep psId) d0 wU3 0 1 = .ok r ∧ 1 ∉ r.processed := by
  have hpen : wU3.processEveryN = 2 := by
    norm_num [Universe.processEveryN, wU3]
  refine ⟨hpen, _, run_okStep wU3 psId d0 0 1 (by norm_num [wU3]), ?_⟩
  rw [postLoop_processed, Universe.runLoopP, cellLoopP_processed, hpen]
  simp [Universe.loopInit, wU3]

/-- The ledger after postLoop: input_energy is added exactly when
cycle_count is a multiple of 50 and the post-merge population is below
max_cells. -/
theorem postLoop_energy (u : Universe) (d : RunDraws) (ie : ℚ) (cc : ℕ)
    (s : LoopSt) :
    (u.postLoop d ie cc s).u.energy =
      if cc % 50 = 0 ∧ (u.mergedCells s).length < u.max_cells
      then u.energy + ie else u.energy := by
  simp only [Universe.postLoop]
  by_cases hsp : cc % 50 = 0 ∧ (u.mergedCells s).length < u.max_cells
  · rw [if_pos hsp, if_pos hsp]
  · rw [if_neg hsp, if_neg hsp]

/-- foods_created after postLoop. -/
theorem postLoop_foods_created (u : Universe) (d : RunDraws) (ie : ℚ)
    (cc : ℕ) (s : LoopSt) :
    (u.postLoop d ie cc s).foods_created =
      if cc % 50 = 0 ∧ (u.mergedCells s).length < u.max_cells
      then mkFoods d.food_ids d.food_positions 0
        (random_partition (ie * u.waste_factor * d.uniform_waste * u.ratio)
          u.min_unit_food u.max_new_foods d.food_part)
      else [] := by
  simp only [Universe.postLoop]
  by_cases hsp : cc % 50 = 0 ∧ (u.mergedCells s).length < u.max_cells
  · rw [if_pos hsp, if_pos hsp]
  · rw [if_neg hsp, if_neg hsp]

/-- venoms_created after postLoop. -/
theorem postLoop_venoms_created (u : Universe) (d : RunDraws) (ie : ℚ)
    (cc : ℕ) (s : LoopSt) :
    (u.postLoop d ie cc s).venoms_created =
      if cc % 50 = 0 ∧ (u.mergedCells s).length < u.max_cells
      then mkVenoms u.venom_energy_to_toxicity d.venom_ids d.venom_positions 0
        (random_partition
          (ie * u.waste_factor * d.uniform_waste * (1 - u.ratio))
          u.min_unit_venom u.max_new_venoms d.venom_part)
      else [] := by
  simp only [Universe.postLoop]
  by_cases hsp : cc % 50 = 0 ∧ (u.mergedCells s).length < u.max_cells
  · rw [if_pos hsp, if_pos hsp]
  · rw [if_neg hsp, if_neg hsp]

/-- The cells after postLoop: the merged list, filtered by the cleanup
pass when cleanup_depleted is set. -/
theorem postLoop_cells (u : Universe) (d : RunDraws) (ie : ℚ) (cc : ℕ)
    (s : LoopSt) :
    (u.postLoop d ie cc s).u.cells =
      if u.cleanup_depleted
      then (u.mergedCells s).filter (fun c => decide (0 < c.energy))
      else u.mergedCells s := by
  simp only [Universe.postLoop]

/-- The returned offspring buffer after postLoop. -/
theorem postLoop_offspring (u : Universe) (d : RunDraws) (ie : ℚ) (cc : ℕ)
    (s : LoopSt) : (u.postLoop d ie cc s).offspring = s.offspring := by
  unfold Universe.postLoop
  rfl

theorem mkFoods_map_energy (ids : ℕ → ℕ) (pos : ℕ → ℚ × ℚ) :
    ∀ (i : ℕ) (es : List ℚ), (mkFoods ids pos i es).map Food.energy = es := by
  intro i es
  induction es generalizing i with
  | nil => rfl
  | cons e es ih => simp [mkFoods, ih]

theorem mkVenoms_map_toxicity (conv : ℚ) (ids : ℕ → ℕ) (pos : ℕ → ℚ × ℚ) :
    ∀ (i : ℕ) (es : List ℚ),
      (mkVenoms conv ids pos i es).map Venom.toxicity =
        es.map (fun e => e * conv) := by
  intro i es
  induction es generalizing i with
  | nil => rfl
  | cons e es ih => simp [mkVenoms, ih]

/-- Claim C4, counterexample: with cycle_count = 1 (not a multiple of 50)
and positive input energy 10, the tick leaves the ledger at 100 and
creates no resources, so the ledger does not increase by input_energy on
every tick with positive input. -/
theorem run_ledger_unchanged_offcycle_cex :
    ∃ r, Universe.run (okStep psId) d0 wU4 10 1 = .ok r ∧
      r.u.energy = 100 ∧ r.foods_created = [] ∧ r.venoms_created = [] ∧
      (100 : ℚ) ≠ 100 + 10 := by
  refine ⟨_, run_okStep wU4 psId d0 10 1 (by norm_num [wU4]), ?_, ?_, ?_,
    by norm_num⟩
  · rw [postLoop_energy, if_neg (by simp)]
    simp [wU4]
  · rw [postLoop_foods_created, if_neg (by simp)]
  · rw [postLoop_venoms_created, if_neg (by simp)]

/-- Claim C4, amended: on a tick whose per-cell pass completes without
raising (the real cell.run() call raises, see C1) and whose configuration
does not abort for unrelated reasons (max_cells at least 2, positive
min-units), resources are spawned and the ledger incremented only when
cycle_count % 50 = 0 and the post-merge population is below max_cells; on
those ticks usable = input * waste_factor * uniform draw, the food pool
usable * ratio and the venom pool usable * (1 - ratio) are partitioned,
and the ledger grows by exactly input_energy; on every other such tick
the ledger is unchanged and nothing is created.  The min-unit hypotheses
keep the statement inside the domain where the real partitioner does not
raise. -/
theorem run_ledger_and_spawn_every_50
    (ps : Cell → Cell × Option Cell) (d : RunDraws) (u : Universe)
    (ie : ℚ) (cc : ℕ) (hmc : 2 ≤ u.max_cells)
    (_hmuf : 0 < u.min_unit_food) (_hmuv : 0 < u.min_unit_venom) :
    ∃ r, Universe.run (okStep ps) d u ie cc = .ok r ∧
      (r.u.energy =
        if cc % 50 = 0 ∧ (u.mergedCells (u.runLoopP ps)).length < u.max_cells
        then u.energy + ie else u.energy) ∧
      (¬ (cc % 50 = 0 ∧
          (u.mergedCells (u.runLoopP ps)).length < u.max_cells) →
        r.foods_created = [] ∧ r.venoms_created = []) ∧
      ((cc % 50 = 0 ∧ (u.mergedCells (u.runLoopP ps)).length < u.max_cells) →
        r.foods_created.map Food.energy =
          random_partition (ie * u.waste_factor * d.uniform_waste * u.ratio)
            u.min_unit_food u.max_new_foods d.food_part ∧
        r.venoms_created.map Venom.toxicity =
          (random_partition
            (ie * u.waste_factor * d.uniform_waste * (1 - u.ratio))
            u.min_unit_venom u.max_new_venoms d.venom_part).map
            (fun e => e * u.venom_energy_to_toxicity)) := by
  refine ⟨_, run_okStep u ps d ie cc hmc, postLoop_energy u d ie cc _, ?_, ?_⟩
  · intro hns
    rw [postLoop_foods_created, postLoop_venoms_created,
      if_neg hns, if_neg hns]
    exact ⟨rfl, rfl⟩
  · intro hsp
    rw [postLoop_foods_created, postLoop_venoms_created,
      if_pos hsp, if_pos hsp, mkFoods_map_energy, mkVenoms_map_toxicity]
    exact ⟨rfl, rfl⟩

/-- Witness for the amended C4 at the empty default universe wU4
(max_cells 500, default min-units), input 10, cycle 1. -/
theorem run_ledger_and_spawn_every_50_inst :
    (2 ≤ wU4.max_cells ∧ 0 < wU4.min_unit_food ∧ 0 < wU4.min_unit_venom) ∧
    (∃ r, Universe.run (okStep psId) d0 wU4 10 1 = .ok r ∧
      (r.u.energy =
        if 1 % 50 = 0 ∧ (wU4.mergedCells (wU4.runLoopP psId)).length < wU4.max_cells
        then wU4.energy + 10 else wU4.energy) ∧
      (¬ (1 % 50 = 0 ∧
          (wU4.mergedCells (wU4.runLoopP psId)).length < wU4.max_cells) →
        r.foods_created = [] ∧ r.venoms_created = []) ∧
      ((1 % 50 = 0 ∧
          (wU4.mergedCells (wU4.runLoopP psId)).length < wU4.max_cells) →
        r.foods_created.map Food.energy =
          random_partition (10 * wU4.waste_factor * d0.uniform_waste * wU4.ratio)
            wU4.min_unit_food wU4.max_new_foods d0.food_part ∧
        r.venoms_created.map Venom.toxicity =
          (random_partition
            (10 * wU4.waste_factor * d0.uniform_waste * (1 - wU4.ratio))
            wU4.min_unit_venom wU4.max_new_venoms d0.venom_part).map
            (fun e => e * wU4.venom_energy_to_toxicity))) :=
  ⟨⟨by norm_num [wU4], by norm_num [wU4], by norm_num [wU4]⟩,
   run_ledger_and_spawn_every_50 psId d0 wU4 10 1
     (by norm_num [wU4]) (by norm_num [wU4]) (by norm_num [wU4])⟩

/-- Claim C5, amended: when a tick's per-cell pass completes without
raising (the real cell.run() call raises, see C1) in a configuration that
does not abort for unrelated reasons (max_cells at least 2, positive
min-units), the offspring buffer is merged only when the whole buffer
fits under the cap (len(cells) + len(offspring) at most max_cells);
otherwise none of the buffered offspring is admitted, even when the
population is below the cap.  The final cells are the merged list after
the cleanup filter. -/
theorem run_offspring_merge_all_or_nothing
    (ps : Cell → Cell × Option Cell) (d : RunDraws) (u : Universe)
    (ie : ℚ) (cc : ℕ) (hmc : 2 ≤ u.max_cells)
    (_hmuf : 0 < u.min_unit_food) (_hmuv : 0 < u.min_unit_venom) :
    ∃ r, Universe.run (okStep ps) d u ie cc = .ok r ∧
      r.offspring = (u.runLoopP ps).offspring ∧
      r.u.cells =
        (if u.cleanup_depleted
         then (u.mergedCells (u.runLoopP ps)).filter
           (fun c => decide (0 < c.energy))
         else u.mergedCells (u.runLoopP ps)) ∧
      (¬ ((u.runLoopP ps).updated.length + (u.runLoopP ps).offspring.length
            ≤ u.max_cells) →
        u.mergedCells (u.runLoopP ps) = (u.runLoopP ps).updated) := by
  refine ⟨_, run_okStep u ps d ie cc hmc, postLoop_offspring u d ie cc _,
    postLoop_cells u d ie cc _, ?_⟩
  intro h
  unfold Universe.mergedCells
  rw [if_neg]
  intro hc
  exact h hc.2

/-- Witness for the amended C5 at the two-cell universe wU5 (max_cells 3,
default min-units) around the always-reproducing step psChild. -/
theorem run_offspring_merge_all_or_nothing_inst :
    (2 ≤ wU5.max_cells ∧ 0 < wU5.min_unit_food ∧ 0 < wU5.min_unit_venom) ∧
    (∃ r, Universe.run (okStep psChild) d0 wU5 0 1 = .ok r ∧
      r.offspring = (wU5.runLoopP psChild).offspring ∧
      r.u.cells =
        (if wU5.cleanup_depleted
         then (wU5.mergedCells (wU5.runLoopP psChild)).filter
           (fun c => decide (0 < c.energy))
         else wU5.mergedCells (wU5.runLoopP psChild)) ∧
      (¬ ((wU5.runLoopP psChild).updated.length +
            (wU5.runLoopP psChild).offspring.length ≤ wU5.max_cells) →
        wU5.mergedCells (wU5.runLoopP psChild) =
          (wU5.runLoopP psChild).updated)) :=
  ⟨⟨by norm_num [wU5], by norm_num [wU5], by norm_num [wU5]⟩,
   run_offspring_merge_all_or_nothing psChild d0 wU5 0 1
     (by norm_num [wU5]) (by norm_num [wU5]) (by norm_num [wU5])⟩

/-- Claim C5, counterexample: at a universe with two live cells and cap 3
the real tick never reaches the offspring merge at all — the first
cell.run() call raises TypeError and Universe.run aborts — so it is not
the case that at the end of every tick buffered offspring are merged up
to the cap, although the live population (2) is below the cap (3).
(wU5_buffer_dropped_eval shows that even around a repaired per-cell step
the merge drops the whole buffer at this input.) -/
theorem run_never_reaches_merge_cex :
    wU5.cells.length = 2 ∧ wU5.cells.length < wU5.max_cells ∧
    Universe.run cellRunCall d0 wU5 0 1 = .error cellRunTypeError := by
  refine ⟨rfl, by norm_num [wU5], ?_⟩
  unfold Universe.run
  rw [processEveryNChecked_ok wU5 (by norm_num [wU5])]
  simp [wU5, Universe.cellLoop, cellRunCall]

/-- The loop state of the wU5 tick around the repaired step, computed. -/
theorem wU5_loop_eval :
    wU5.runLoopP psChild =
      { foods := [], venoms := [], updated := [wC5a, wC5b],
        offspring := [wChild, wChild], processed := [0, 1] } := by
  have hpen : wU5.processEveryN = 1 := by
    norm_num [Universe.processEveryN, wU5]
  rw [Universe.runLoopP, hpen]
  norm_num [Universe.cellLoopP, Universe.loopInit, psChild, wU5, wC5a, wC5b,
    wChild, Universe.apply_bounds, Universe.interactPartial, foodPass,
    venomPass, Cell.diameter]

/-- Around a repaired (non-raising) per-cell step, the wU5 tick buffers
two offspring; the buffer does not fit (2 + 2 > 3), so the code discards
the whole buffer: the final population stays 2, strictly below the cap
of 3, yet no offspring is admitted. -/
theorem wU5_buffer_dropped_eval :
    ∃ r, Universe.run (okStep psChild) d0 wU5 0 1 = .ok r ∧
      r.offspring.length = 2 ∧
      r.u.cells.length = 2 ∧
      r.u.cells.length < wU5.max_cells ∧
      wChild ∉ r.u.cells := by
  have hmerged : wU5.mergedCells (wU5.runLoopP psChild) = [wC5a, wC5b] := by
    rw [wU5_loop_eval, Universe.mergedCells]
    norm_num [wU5]
  refine ⟨_, run_okStep wU5 psChild d0 0 1 (by norm_num [wU5]), ?_, ?_, ?_, ?_⟩
  · rw [postLoop_offspring, wU5_loop_eval]
    rfl
  · rw [postLoop_cells, hmerged]
    norm_num [wU5, wC5a, wC5b]
  · rw [postLoop_cells, hmerged]
    norm_num [wU5, wC5a, wC5b]
  · rw [postLoop_cells, hmerged]
    norm_num [wU5, wC5a, wC5b, wChild, Cell.mk.injEq]

end SaGa
